import Mathlib

/-!
Verification of the Panchang computation engine of the vedic-dob repository.

The pure numeric derivations of `src/app.py` (tithi, nakshatra, rashi, masa)
and `src/panchanga.py` (get_tithi) are embedded over `ℚ`; Python's `%` on
floats with a positive modulus is embedded as `pymod`, and Python's `//`
(floor division) followed by `int(...)` on a non-negative value as `Int.floor`.
The anniversary search loop `find_vedic_anniversary` of `src/app.py` is
embedded with the ephemeris provider (`sun_moon_sidereal_topo`, which may
raise) abstracted as a function from the candidate civil day to
`Option (ℚ × ℚ)`, `none` standing for a raised exception.
-/

namespace VedicDob

/-- Python's `x % y` for a positive real modulus `y`: the representative of
`x` modulo `y` lying in `[0, y)`. -/
def pymod (x y : ℚ) : ℚ := x - y * ⌊x / y⌋

theorem pymod_nonneg (x : ℚ) {y : ℚ} (hy : 0 < y) : 0 ≤ pymod x y := by
  have h : ((⌊x / y⌋ : ℚ)) ≤ x / y := Int.floor_le (x / y)
  rw [le_div_iff₀ hy] at h
  unfold pymod
  nlinarith

theorem pymod_lt (x : ℚ) {y : ℚ} (hy : 0 < y) : pymod x y < y := by
  have h : x / y < (⌊x / y⌋ : ℚ) + 1 := Int.lt_floor_add_one (x / y)
  rw [div_lt_iff₀ hy] at h
  unfold pymod
  nlinarith

/-- Embeds `tithi_from_sidereal` (app.py line 115): `diff = (moon_sid - sun_sid) % 360`. -/
def tithiDiff (sun_sid moon_sid : ℚ) : ℚ := pymod (moon_sid - sun_sid) 360

/-- Embeds `tithi_from_sidereal` (app.py line 116): `tnum = int(diff // 12) + 1`. -/
def tithiNum (sun_sid moon_sid : ℚ) : ℤ := ⌊tithiDiff sun_sid moon_sid / 12⌋ + 1

/-- Embeds `tithi_from_sidereal` (app.py line 117): paksha from the tithi number. -/
def paksha (sun_sid moon_sid : ℚ) : String :=
  if tithiNum sun_sid moon_sid ≤ 15 then "Shukla" else "Krishna"

/-- The 15 canonical tithi names (app.py lines 118-120). -/
def tithis : List String :=
  ["Pratipada", "Dvitiya", "Tritiya", "Chaturthi", "Panchami",
   "Shashthi", "Saptami", "Ashtami", "Navami", "Dashami",
   "Ekadashi", "Dwadashi", "Trayodashi", "Chaturdashi", "Purnima/Amavasya"]

/-- Embeds `tithi_from_sidereal` (app.py line 121): `tname = tithis[(tnum - 1) % 15]`. -/
def tithiName (sun_sid moon_sid : ℚ) : Option String :=
  tithis.get? ((tithiNum sun_sid moon_sid - 1) % 15).toNat

/-- Embeds `nakshatra_from_sidereal` (app.py line 126): `sector = 360.0 / 27.0`. -/
def nakSector : ℚ := 360 / 27

/-- Embeds `nakshatra_from_sidereal` (app.py line 127):
`idx0 = int((moon_sid % 360) // sector)`. -/
def nakIdx0 (moon_sid : ℚ) : ℤ := ⌊pymod moon_sid 360 / nakSector⌋

/-- Embeds `nakshatra_from_sidereal` (app.py line 128):
`deg_into = (moon_sid % 360) - idx0 * sector`. -/
def nakDegInto (moon_sid : ℚ) : ℚ := pymod moon_sid 360 - nakIdx0 moon_sid * nakSector

/-- Embeds `nakshatra_from_sidereal` (app.py line 129):
`pada = int(deg_into // (sector / 4)) + 1`. -/
def nakPada (moon_sid : ℚ) : ℤ := ⌊nakDegInto moon_sid / (nakSector / 4)⌋ + 1

/-- The 27 canonical nakshatra names (app.py lines 130-135). -/
def nakshatraNames : List String :=
  ["Ashwini", "Bharani", "Krittika", "Rohini", "Mrigashirsha",
   "Ardra", "Punarvasu", "Pushya", "Ashlesha", "Magha",
   "Purva Phalguni", "Uttara Phalguni", "Hasta", "Chitra",
   "Swati", "Vishakha", "Anuradha", "Jyeshtha", "Mula",
   "Purva Ashadha", "Uttara Ashadha", "Shravana", "Dhanishta",
   "Shatabhisha", "Purva Bhadrapada", "Uttara Bhadrapada", "Revati"]

/-- Embeds `nakshatra_from_sidereal` (app.py line 136): `names[idx0]`. -/
def nakName (moon_sid : ℚ) : Option String :=
  nakshatraNames.get? (nakIdx0 moon_sid).toNat

/-- Embeds `rashi_from_sidereal` (app.py line 140): `idx = int((moon_sid % 360) // 30)`. -/
def rashiIdx (moon_sid : ℚ) : ℤ := ⌊pymod moon_sid 360 / 30⌋

/-- The 12 canonical rashi names (app.py lines 142-143). -/
def rashiNames : List String :=
  ["Mesha", "Vrishabha", "Mithuna", "Karka", "Simha", "Kanya",
   "Tula", "Vrischika", "Dhanu", "Makara", "Kumbha", "Meena"]

/-- Embeds `rashi_from_sidereal` (app.py line 144): `names[idx]`. -/
def rashiName (moon_sid : ℚ) : Option String :=
  rashiNames.get? (rashiIdx moon_sid).toNat

/-- Embeds `masa_from_sidereal` (app.py line 156):
`idx = int(((sun_sid + 30) % 360) // 30)`. -/
def masaIdx (sun_sid : ℚ) : ℤ := ⌊pymod (sun_sid + 30) 360 / 30⌋

/-- The 12 canonical month names (app.py lines 157-159). -/
def masaNames : List String :=
  ["Chaitra", "Vaishakha", "Jyeshtha", "Ashadha", "Shravana",
   "Bhadrapada", "Ashwin", "Kartika", "Margashirsha", "Pausha",
   "Magha", "Phalguna"]

/-- Embeds `masa_from_sidereal` (app.py line 160): `months[idx]`. -/
def masaName (sun_sid : ℚ) : Option String :=
  masaNames.get? (masaIdx sun_sid).toNat

/-- Embeds `get_tithi` (panchanga.py lines 43-44): the tithi number computed from the
moon and sun longitudes, `int(diff // 12) + 1` with `diff = (moon - sun) % 360`. -/
def getTithiNum (moon_long sun_long : ℚ) : ℤ :=
  ⌊pymod (moon_long - sun_long) 360 / 12⌋ + 1

/-- Embeds `get_tithi` (panchanga.py line 51): the fortnight is chosen by testing
`diff < 180`. -/
def getTithiFortnight (moon_long sun_long : ℚ) : String :=
  if pymod (moon_long - sun_long) 360 < 180 then "Shukla Paksha" else "Krishna Paksha"

/-! ### Generic facts about flooring into equal sectors -/

theorem sector_floor_nonneg_lt (x s : ℚ) (n : ℤ) (hs : 0 < s)
    (h0 : 0 ≤ x) (hn : x < n * s) : 0 ≤ ⌊x / s⌋ ∧ ⌊x / s⌋ < n := by
  constructor
  · exact Int.le_floor.mpr (by simpa using div_nonneg h0 hs.le)
  · exact Int.floor_lt.mpr (by rw [div_lt_iff₀ hs]; exact_mod_cast hn)

theorem sector_floor_eq_iff (x s : ℚ) (hs : 0 < s) (k : ℤ) :
    ⌊x / s⌋ = k ↔ (k : ℚ) * s ≤ x ∧ x < ((k : ℚ) + 1) * s := by
  rw [Int.floor_eq_iff, le_div_iff₀ hs, div_lt_iff₀ hs]

theorem get?_isSome_of_lt {α : Type} (l : List α) (n : ℕ) (h : n < l.length) :
    (l.get? n).isSome = true := by
  cases hg : l.get? n with
  | none => rw [List.get?_eq_none] at hg; omega
  | some a => rfl

theorem floor_div12_succ_range (x : ℚ) (h0 : 0 ≤ x) (h1 : x < 360) :
    1 ≤ ⌊x / 12⌋ + 1 ∧ ⌊x / 12⌋ + 1 ≤ 30 := by
  have h := sector_floor_nonneg_lt x 12 30 (by norm_num) h0 (by norm_num; linarith)
  omega

theorem nakDegInto_bounds (moon_sid : ℚ) :
    0 ≤ nakDegInto moon_sid ∧ nakDegInto moon_sid < nakSector := by
  have hs : (0 : ℚ) < nakSector := by norm_num [nakSector]
  have h1 : ((⌊pymod moon_sid 360 / nakSector⌋ : ℚ)) ≤ pymod moon_sid 360 / nakSector :=
    Int.floor_le _
  have h2 : pymod moon_sid 360 / nakSector < (⌊pymod moon_sid 360 / nakSector⌋ : ℚ) + 1 :=
    Int.lt_floor_add_one _
  rw [le_div_iff₀ hs] at h1
  rw [div_lt_iff₀ hs] at h2
  unfold nakDegInto nakIdx0
  constructor
  · linarith
  · nlinarith

/-! ### Claim C1 -/

/-- C1: the lunar-day derivation computes `diff = (moon_deg - sun_deg) mod 360`
and `day_number = floor(diff / 12) + 1`, in `app.py`'s `tithi_from_sidereal` and
`panchanga.py`'s `get_tithi` alike; the day number always lies in 1..30, and for
sun = 355, moon = 5 the diff is 10 and the lunar day is 1, so the
negative-subtraction wraparound never yields day 31 or day 0. -/
theorem tithi_formula_range_wraparound :
    (∀ sun_sid moon_sid : ℚ,
        tithiDiff sun_sid moon_sid = pymod (moon_sid - sun_sid) 360 ∧
        tithiNum sun_sid moon_sid = ⌊tithiDiff sun_sid moon_sid / 12⌋ + 1 ∧
        1 ≤ tithiNum sun_sid moon_sid ∧ tithiNum sun_sid moon_sid ≤ 30) ∧
      (∀ moon_long sun_long : ℚ,
        getTithiNum moon_long sun_long = ⌊pymod (moon_long - sun_long) 360 / 12⌋ + 1 ∧
        1 ≤ getTithiNum moon_long sun_long ∧ getTithiNum moon_long sun_long ≤ 30) ∧
      tithiDiff 355 5 = 10 ∧ tithiNum 355 5 = 1 := by
  refine ⟨fun sun moon => ⟨rfl, rfl, ?_⟩, fun moon sun => ⟨rfl, ?_⟩, ?_, ?_⟩
  · have h := floor_div12_succ_range (tithiDiff sun moon)
      (pymod_nonneg _ (by norm_num)) (pymod_lt _ (by norm_num))
    unfold tithiNum
    omega
  · have h := floor_div12_succ_range (pymod (moon - sun) 360)
      (pymod_nonneg _ (by norm_num)) (pymod_lt _ (by norm_num))
    unfold getTithiNum
    omega
  · norm_num [tithiDiff, pymod]
  · norm_num [tithiNum, tithiDiff, pymod]

/-! ### Claim C5 -/

/-- C5: the mansion derivation partitions the circle into 27 contiguous equal
sectors of width 360/27 and the sign derivation into 12 contiguous equal
30-degree sectors, with no gap or overlap (each normalized longitude lands in
the sector `k` exactly when `k*sector ≤ x < (k+1)*sector`); a boundary value
such as 30.0 belongs to the sector starting there; both indexes select one of
the canonical names; and the pada `floor(remainder / (sector/4)) + 1` always
lies in 1..4. -/
theorem mansion_sign_partition_pada :
    (∀ moon_sid : ℚ,
        0 ≤ nakIdx0 moon_sid ∧ nakIdx0 moon_sid < 27 ∧
        (∀ k : ℤ, nakIdx0 moon_sid = k ↔
          (k : ℚ) * nakSector ≤ pymod moon_sid 360 ∧
            pymod moon_sid 360 < ((k : ℚ) + 1) * nakSector) ∧
        (nakName moon_sid).isSome = true) ∧
      (∀ moon_sid : ℚ,
        0 ≤ rashiIdx moon_sid ∧ rashiIdx moon_sid < 12 ∧
        (∀ k : ℤ, rashiIdx moon_sid = k ↔
          (k : ℚ) * 30 ≤ pymod moon_sid 360 ∧ pymod moon_sid 360 < ((k : ℚ) + 1) * 30) ∧
        (rashiName moon_sid).isSome = true) ∧
      rashiIdx 30 = 1 ∧
      (∀ moon_sid : ℚ,
        nakPada moon_sid = ⌊nakDegInto moon_sid / (nakSector / 4)⌋ + 1 ∧
        1 ≤ nakPada moon_sid ∧ nakPada moon_sid ≤ 4) := by
  have h360 : (0 : ℚ) < 360 := by norm_num
  refine ⟨fun m => ?_, fun m => ?_, by norm_num [rashiIdx, pymod], fun m => ?_⟩
  · have hs : (0 : ℚ) < nakSector := by norm_num [nakSector]
    have h27 : ((27 : ℤ) : ℚ) * nakSector = 360 := by norm_num [nakSector]
    have hr := sector_floor_nonneg_lt (pymod m 360) nakSector 27 hs
      (pymod_nonneg _ h360) (by rw [h27]; exact pymod_lt _ h360)
    refine ⟨hr.1, hr.2, fun k => sector_floor_eq_iff _ _ hs k, ?_⟩
    apply get?_isSome_of_lt
    have : (nakIdx0 m).toNat < 27 := by unfold nakIdx0 at *; omega
    simpa [nakshatraNames] using this
  · have hs : (0 : ℚ) < 30 := by norm_num
    have hr := sector_floor_nonneg_lt (pymod m 360) 30 12 hs
      (pymod_nonneg _ h360) (by norm_num; exact pymod_lt _ h360)
    refine ⟨hr.1, hr.2, fun k => sector_floor_eq_iff _ _ hs k, ?_⟩
    apply get?_isSome_of_lt
    have : (rashiIdx m).toNat < 12 := by unfold rashiIdx at *; omega
    simpa [rashiNames] using this
  · have hs4 : (0 : ℚ) < nakSector / 4 := by norm_num [nakSector]
    have hd := nakDegInto_bounds m
    have hr := sector_floor_nonneg_lt (nakDegInto m) (nakSector / 4) 4 hs4 hd.1
      (by rw [show ((4 : ℤ) : ℚ) * (nakSector / 4) = nakSector from by ring_nf]
          exact hd.2)
    refine ⟨rfl, ?_, ?_⟩ <;> unfold nakPada <;> omega

/-! ### Claim C6 -/

/-- C6: the fortnight is Waxing (Shukla) exactly when the lunar day number is
at most 15, and Waning (Krishna) otherwise — both for `tithi_from_sidereal` in
`app.py`, which tests the day number directly, and for `get_tithi` in
`panchanga.py`, which tests `diff < 180`. -/
theorem fortnight_waxing_iff_first_half :
    ∀ sun_sid moon_sid : ℚ,
      (paksha sun_sid moon_sid = "Shukla" ↔ tithiNum sun_sid moon_sid ≤ 15) ∧
      (paksha sun_sid moon_sid = "Krishna" ↔ ¬tithiNum sun_sid moon_sid ≤ 15) ∧
      (getTithiFortnight moon_sid sun_sid = "Shukla Paksha" ↔
        getTithiNum moon_sid sun_sid ≤ 15) ∧
      (getTithiFortnight moon_sid sun_sid = "Krishna Paksha" ↔
        ¬getTithiNum moon_sid sun_sid ≤ 15) := by
  intro sun moon
  have key : pymod (moon - sun) 360 < 180 ↔ getTithiNum moon sun ≤ 15 := by
    unfold getTithiNum
    constructor
    · intro h
      have h2 : ⌊pymod (moon - sun) 360 / 12⌋ < 15 :=
        Int.floor_lt.mpr (by rw [div_lt_iff₀ (by norm_num : (0 : ℚ) < 12)]; push_cast; linarith)

      omega
    · intro h
      have h2 : ⌊pymod (moon - sun) 360 / 12⌋ < 15 := by omega
      rw [Int.floor_lt, div_lt_iff₀ (by norm_num : (0 : ℚ) < 12)] at h2
      push_cast at h2
      linarith
  refine ⟨?_, ?_, ?_, ?_⟩
  · by_cases h : tithiNum sun moon ≤ 15 <;> simp [paksha, h]
  · by_cases h : tithiNum sun moon ≤ 15 <;> simp [paksha, h]
  · by_cases h : pymod (moon - sun) 360 < 180 <;>
      simp [getTithiFortnight, h, ← key]
  · by_cases h : pymod (moon - sun) 360 < 180 <;>
      simp [getTithiFortnight, h, ← key]

/-! ### Claim C7 -/

/-- C7: the lunar-month derivation computes
`index = floor(((sun_deg + 30) mod 360) / 30) mod 12` (the trailing `mod 12` is
vacuous because the index already lies in 0..11), and the index selects one of
the 12 canonical month names. -/
theorem masa_index_formula :
    ∀ sun_sid : ℚ,
      masaIdx sun_sid = ⌊pymod (sun_sid + 30) 360 / 30⌋ % 12 ∧
      0 ≤ masaIdx sun_sid ∧ masaIdx sun_sid < 12 ∧
      (masaName sun_sid).isSome = true := by
  intro sun
  have hr := sector_floor_nonneg_lt (pymod (sun + 30) 360) 30 12 (by norm_num)
    (pymod_nonneg _ (by norm_num)) (by norm_num; exact pymod_lt _ (by norm_num))
  refine ⟨?_, hr.1, hr.2, ?_⟩
  · unfold masaIdx
    omega
  · apply get?_isSome_of_lt
    have : (masaIdx sun).toNat < 12 := by unfold masaIdx at *; omega
    simpa [masaNames] using this


/-! ### The reference elements and the anniversary search -/

/-- The four reference elements captured by the submit handler (app.py lines
294-298) and closed over by `find_vedic_anniversary`: `tnum`, `nak_name`,
`rashi_name`, `masa_name`. -/
structure PanchangRef where
  tnum : ℤ
  nak : Option String
  rashi : Option String
  masa : Option String
deriving DecidableEq

/-- The reference elements derived from the birth instant's sidereal
longitudes (app.py lines 294-298). -/
def refOf (sun_sid moon_sid : ℚ) : PanchangRef :=
  ⟨tithiNum sun_sid moon_sid, nakName moon_sid, rashiName moon_sid, masaName sun_sid⟩

/-- The full-match test of the search loop (app.py line 377):
`tnum_c == tnum and nak_c == nak_name and rashi_c == rashi_name and
masa_c == masa_name`, with the candidate elements derived from the candidate's
sidereal pair `sm = (s_c, m_c)`. -/
def elemsMatch (ref : PanchangRef) (sm : ℚ × ℚ) : Prop :=
  tithiNum sm.1 sm.2 = ref.tnum ∧ nakName sm.2 = ref.nak ∧
    rashiName sm.2 = ref.rashi ∧ masaName sm.1 = ref.masa

instance (ref : PanchangRef) (sm : ℚ × ℚ) : Decidable (elemsMatch ref sm) := by
  unfold elemsMatch; infer_instance

/-- A local wall-clock instant: a civil day number and the minutes past local
midnight. `pytz.localize` attaches an offset and leaves both fields unchanged,
and adding `timedelta(days=i)` to an aware datetime adds `i` to the day and
leaves the clock time unchanged. -/
structure LocalDT where
  day : ℤ
  minute : ℕ
deriving DecidableEq

/-- Noon, 12:00, as minutes past midnight: `dtime(12, 0)`. -/
def noonMinutes : ℕ := 720

/-- Embeds `start_dt_localized = local_tz.localize(datetime.combine(start_date_obj,
dtime(12, 0)))` (app.py line 355): local noon on the search start day. -/
def startDtLocalized (startDay : ℤ) : LocalDT := ⟨startDay, noonMinutes⟩

/-- Embeds `t + timedelta(days=i)` on an aware datetime. -/
def addDays (t : LocalDT) (i : ℕ) : LocalDT := ⟨t.day + i, t.minute⟩

/-- Embeds `cand_local = start_dt_localized + timedelta(days=i)` (app.py line 358). -/
def candLocal (startDay : ℤ) (i : ℕ) : LocalDT := addDays (startDtLocalized startDay) i

@[simp] theorem candLocal_day (startDay : ℤ) (i : ℕ) :
    (candLocal startDay i).day = startDay + i := rfl

/-- Embeds `local_dt = local_tz.localize(datetime.combine(dob, birth_time))` (app.py
line 281): the reference (birth) instant in local wall-clock form. -/
def birthLocal (dobDay : ℤ) (birthMinute : ℕ) : LocalDT := ⟨dobDay, birthMinute⟩

/-- The loop of `find_vedic_anniversary` (app.py lines 357-380), unrolled on the
remaining iterations of `range(max_days)`: `i` is the loop counter and `fuel`
the iterations left. The ephemeris provider (`sun_moon_sidereal_topo` at line
367) is abstracted as a function from the candidate civil day to
`Option (ℚ × ℚ)`; `none` models a raised exception, caught by the
`try/except: continue` at lines 366-369. The `if i >= 365 and
cand_local.date() > start_date_obj + timedelta(days=365): break` guard at
lines 362-364 is the first test of each iteration. -/
def findFrom (provider : ℤ → Option (ℚ × ℚ)) (ref : PanchangRef) (startDay : ℤ) :
    ℕ → ℕ → Option ℤ
  | _, 0 => none
  | i, fuel + 1 =>
    if 365 ≤ i ∧ startDay + 365 < (candLocal startDay i).day then none
    else
      match provider (candLocal startDay i).day with
      | none => findFrom provider ref startDay (i + 1) fuel
      | some sm =>
        if elemsMatch ref sm then some (candLocal startDay i).day
        else findFrom provider ref startDay (i + 1) fuel

/-- Embeds `find_vedic_anniversary(start_date_obj, max_days=380)` (app.py lines
347-380): run the loop from `i = 0`; falling off the loop is `return None`. -/
def findVedicAnniversary (provider : ℤ → Option (ℚ × ℚ)) (ref : PanchangRef)
    (startDay : ℤ) (maxDays : ℕ) : Option ℤ :=
  findFrom provider ref startDay 0 maxDays

/-- Day `d` yields a full four-element match: the provider succeeds on `d` and
all four derived elements equal the reference's. -/
def matchAtB (provider : ℤ → Option (ℚ × ℚ)) (ref : PanchangRef) (d : ℤ) : Bool :=
  match provider d with
  | none => false
  | some sm => decide (elemsMatch ref sm)

/-- The caller's rendering of a search result (app.py lines 416-424):
`str(date)` when a date was found, otherwise "Passed already in Y" when
searching the current year and "Not found in Y" otherwise; the civil day is
rendered through `toString`. -/
def requestedYearValue (res : Option ℤ) (year currentYear : ℤ) : String :=
  match res with
  | some d => toString d
  | none =>
    if year = currentYear then "Passed already in " ++ toString year
    else "Not found in " ++ toString year

/-! ### The manual-coordinates request path -/

/-- What happens to one request between input handling and the first ephemeris
call. -/
inductive RequestOutcome where
  | rejected : RequestOutcome
  | providerCalled : ℚ × ℚ × ℚ → RequestOutcome
deriving DecidableEq

/-- The arguments of `swe.set_topo(lon_deg, lat_deg, height_m)` inside
`sun_moon_sidereal_topo` (app.py line 99): the observer coordinates handed to
the ephemeris library, exactly as received. -/
def setTopoArgs (lon_deg lat_deg height_m : ℚ) : ℚ × ℚ × ℚ :=
  (lon_deg, lat_deg, height_m)

/-- The validation predicate named by the spec (section 7, InvalidInput):
latitude in [-90, 90] and longitude in [-180, 180]. -/
def validLocation (lat lon : ℚ) : Prop :=
  -90 ≤ lat ∧ lat ≤ 90 ∧ -180 ≤ lon ∧ lon ≤ 180

/-- The path of a manually entered latitude/longitude through the submit
handler: app.py reads the two number inputs with no bounds (lines 218-221) and
passes them to `sun_moon_sidereal_topo(jd_ut, lon, lat, 0.0)` (line 288),
which immediately calls `swe.set_topo(lon, lat, 0.0)` (line 99). No check
stands between the input and the call. -/
def manualRequestFlow (lat lon : ℚ) : RequestOutcome :=
  .providerCalled (setTopoArgs lon lat 0)
/-! ### Behaviour of the search loop -/

theorem findFrom_eq_none (provider : ℤ → Option (ℚ × ℚ)) (ref : PanchangRef)
    (startDay : ℤ) :
    ∀ fuel i : ℕ,
      (∀ j : ℕ, i ≤ j → j < i + fuel → matchAtB provider ref (startDay + j) = false) →
      findFrom provider ref startDay i fuel = none := by
  intro fuel
  induction fuel with
  | zero => intro i _; rfl
  | succ n ih =>
    intro i h
    have hstep : ∀ j : ℕ, i + 1 ≤ j → j < (i + 1) + n →
        matchAtB provider ref (startDay + j) = false :=
      fun j h1 h2 => h j (by omega) (by omega)
    have hme := h i (le_refl i) (by omega)
    simp only [findFrom]
    by_cases hbr : 365 ≤ i ∧ startDay + 365 < (candLocal startDay i).day
    · rw [if_pos hbr]
    · rw [if_neg hbr]
      cases hp : provider (candLocal startDay i).day with
      | none => exact ih (i + 1) hstep
      | some sm =>
        have hnm : ¬ elemsMatch ref sm := by
          have hrw : matchAtB provider ref (startDay + i) = decide (elemsMatch ref sm) := by
            unfold matchAtB
            rw [show provider (startDay + (i : ℤ)) = some sm from hp]
          rw [hrw] at hme
          exact of_decide_eq_false hme
        show (if elemsMatch ref sm then some (candLocal startDay i).day
              else findFrom provider ref startDay (i + 1) n) = none
        rw [if_neg hnm]
        exact ih (i + 1) hstep

theorem findFrom_spec (provider : ℤ → Option (ℚ × ℚ)) (ref : PanchangRef)
    (startDay : ℤ) :
    ∀ fuel i : ℕ,
      findFrom provider ref startDay i fuel = none ∨
      ∃ k : ℕ, i ≤ k ∧ k < i + fuel ∧ k ≤ 365 ∧
        findFrom provider ref startDay i fuel = some (startDay + k) ∧
        matchAtB provider ref (startDay + k) = true ∧
        ∀ j : ℕ, i ≤ j → j < k → matchAtB provider ref (startDay + j) = false := by
  intro fuel
  induction fuel with
  | zero => intro i; left; rfl
  | succ n ih =>
    intro i
    by_cases hbr : 365 ≤ i ∧ startDay + 365 < (candLocal startDay i).day
    · left; simp only [findFrom]; rw [if_pos hbr]
    · have hi365 : i ≤ 365 := by
        by_contra hi
        exact hbr ⟨by omega, by rw [candLocal_day]; omega⟩
      cases hp : provider (candLocal startDay i).day with
      | none =>
        have hmf : matchAtB provider ref (startDay + i) = false := by
          unfold matchAtB
          rw [show provider (startDay + (i : ℤ)) = none from hp]
        have heq : findFrom provider ref startDay i (n + 1) =
            findFrom provider ref startDay (i + 1) n := by
          simp only [findFrom]; rw [if_neg hbr, hp]
        rcases ih (i + 1) with hnone | ⟨k, hk1, hk2, hk3, hk4, hk5, hk6⟩
        · left; rw [heq]; exact hnone
        · right
          refine ⟨k, by omega, by omega, hk3, by rw [heq]; exact hk4, hk5, ?_⟩
          intro j hj1 hj2
          rcases Nat.eq_or_lt_of_le hj1 with hji | hji
          · rw [← hji]; exact hmf
          · exact hk6 j hji hj2
      | some sm =>
        have hrw : matchAtB provider ref (startDay + i) = decide (elemsMatch ref sm) := by
          unfold matchAtB
          rw [show provider (startDay + (i : ℤ)) = some sm from hp]
        by_cases hm : elemsMatch ref sm
        · right
          refine ⟨i, le_refl i, by omega, hi365, ?_, ?_, fun j hj1 hj2 => absurd hj2 (by omega)⟩
          · simp only [findFrom]; rw [if_neg hbr, hp]
            show (if elemsMatch ref sm then some (candLocal startDay i).day
                  else findFrom provider ref startDay (i + 1) n) = some (startDay + i)
            rw [if_pos hm]; rfl
          · rw [hrw]; exact decide_eq_true hm
        · have hmf : matchAtB provider ref (startDay + i) = false := by
            rw [hrw]; exact decide_eq_false hm
          have heq : findFrom provider ref startDay i (n + 1) =
              findFrom provider ref startDay (i + 1) n := by
            simp only [findFrom]; rw [if_neg hbr, hp]
            show (if elemsMatch ref sm then some (candLocal startDay i).day
                  else findFrom provider ref startDay (i + 1) n) =
                findFrom provider ref startDay (i + 1) n
            rw [if_neg hm]
          rcases ih (i + 1) with hnone | ⟨k, hk1, hk2, hk3, hk4, hk5, hk6⟩
          · left; rw [heq]; exact hnone
          · right
            refine ⟨k, by omega, by omega, hk3, by rw [heq]; exact hk4, hk5, ?_⟩
            intro j hj1 hj2
            rcases Nat.eq_or_lt_of_le hj1 with hji | hji
            · rw [← hji]; exact hmf
            · exact hk6 j hji hj2

/-! ### Claim C2 -/

/-- C2 (amended): every candidate instant of the next-occurrence search is the
search start date advanced by `i` days with the local time-of-day held fixed at
12:00 noon — the same clock time for every candidate day, but independent of
the reference (birth) instant's clock time. -/
theorem candidate_noon_fixed :
    ∀ (startDay : ℤ) (i : ℕ),
      candLocal startDay i = ⟨startDay + i, noonMinutes⟩ ∧
      (candLocal startDay i).minute = (startDtLocalized startDay).minute :=
  fun _ _ => ⟨rfl, rfl⟩

/-- C2 counterexample: for a birth instant at 06:00 local time (360 minutes
past midnight), the first candidate's local clock time is 12:00 noon
(720 minutes), not the reference instant's 06:00. -/
theorem candidate_clock_ne_birth_clock :
    (candLocal 0 0).minute = noonMinutes ∧ (birthLocal 0 360).minute = 360 ∧
    (candLocal 0 0).minute ≠ (birthLocal 0 360).minute :=
  ⟨rfl, rfl, by decide⟩

/-! ### Claim C3 -/

/-- C3 (amended): whenever no full four-element (Tier-1) match occurs on any
scanned candidate day, `find_vedic_anniversary` returns `None`; it performs no
second scan with reduced criteria — there is no Tier-2 fallback. -/
theorem no_tier2_fallback :
    ∀ (provider : ℤ → Option (ℚ × ℚ)) (ref : PanchangRef) (startDay : ℤ) (maxDays : ℕ),
      (∀ j : ℕ, j < maxDays → matchAtB provider ref (startDay + j) = false) →
      findVedicAnniversary provider ref startDay maxDays = none :=
  fun p r s m h => findFrom_eq_none p r s m 0 (fun j _ h2 => h j (by omega))

/-- Witness for the amended C3 at a concrete input: a provider failing on every
day gives no match on any of the 2 scanned days, and the search returns `None`. -/
theorem no_tier2_fallback_witness :
    findVedicAnniversary (fun _ => none) (refOf 10 130) 0 2 = none :=
  no_tier2_fallback (fun _ => none) (refOf 10 130) 0 2 (fun _ _ => rfl)

theorem nakName_130_eval : nakName 130 = some "Magha" := by
  norm_num [nakName, nakIdx0, nakSector, pymod, nakshatraNames]
  rfl

theorem nakName_144_eval : nakName 144 = some "Purva Phalguni" := by
  norm_num [nakName, nakIdx0, nakSector, pymod, nakshatraNames]
  rfl

theorem not_elemsMatch_cex : ¬ elemsMatch (refOf 10 130) (24, 144) := by
  intro h
  have h2 := h.2.1
  rw [show (refOf 10 130).nak = nakName 130 from rfl, nakName_144_eval,
    nakName_130_eval] at h2
  simp at h2

theorem matchAtB_cex_false (d : ℤ) :
    matchAtB (fun _ => some ((24 : ℚ), (144 : ℚ))) (refOf 10 130) d = false :=
  decide_eq_false not_elemsMatch_cex

/-- C3 counterexample: take the reference elements of the sidereal pair
(sun, moon) = (10, 130) and a provider that yields (24, 144) on every candidate
day. The candidate lunar day (11) and lunar month (Vaishakha) equal the
reference's on every day of any ~365-day fallback window — day 40 included —
while the lunar mansion differs, so Tier 1 never matches; the claimed Tier-2
re-scan would return the first such day as a fallback match, but the search
returns `None`. -/
theorem no_tier2_fallback_cex :
    tithiNum 24 144 = (refOf 10 130).tnum ∧
    masaName 24 = (refOf 10 130).masa ∧
    findVedicAnniversary (fun _ => some ((24 : ℚ), (144 : ℚ)))
      (refOf 10 130) 0 380 = none := by
  refine ⟨?_, ?_, ?_⟩
  · show tithiNum 24 144 = tithiNum 10 130
    norm_num [tithiNum, tithiDiff, pymod]
  · show masaName 24 = masaName 10
    norm_num [masaName, masaIdx, pymod]
  · exact findFrom_eq_none _ _ _ 380 0 (fun j _ _ => matchAtB_cex_false _)

/-! ### Claim C4 -/

/-- C4 (amended): when nothing matches within the scanned window the search
returns `None` — a normal, representable outcome, not an exception, and
distinct from every genuine match `some d` — and the caller renders `None` as
a "Passed already in Y" / "Not found in Y" message and a match as the date
itself; the start date is not returned as a stand-in result. -/
theorem no_match_returns_none :
    ∀ (provider : ℤ → Option (ℚ × ℚ)) (ref : PanchangRef) (startDay : ℤ)
      (maxDays : ℕ) (y c : ℤ),
      ((∀ j : ℕ, j < maxDays → matchAtB provider ref (startDay + j) = false) →
        findVedicAnniversary provider ref startDay maxDays = none) ∧
      (∀ d : ℤ, (none : Option ℤ) ≠ some d) ∧
      (y = c → requestedYearValue none y c = "Passed already in " ++ toString c) ∧
      (y ≠ c → requestedYearValue none y c = "Not found in " ++ toString y) ∧
      (∀ d : ℤ, requestedYearValue (some d) y c = toString d) := by
  intro p r s m y c
  refine ⟨fun h => findFrom_eq_none p r s m 0 (fun j _ h2 => h j (by omega)),
    fun d h => Option.noConfusion h, fun hyc => ?_, fun hyc => ?_, fun d => rfl⟩
  · unfold requestedYearValue
    rw [if_pos hyc, hyc]
  · unfold requestedYearValue
    rw [if_neg hyc]

/-- Witness for the amended C4 at concrete inputs: with a provider failing on
every day, the search over 3 days returns `None`, and the caller renders
`None` for a current-year search and a future-year search as the two no-match
messages, and a found day as its date. -/
theorem no_match_returns_none_witness :
    findVedicAnniversary (fun _ => none) (refOf 10 130) 5 3 = none ∧
    requestedYearValue none 2026 2026 = "Passed already in " ++ toString (2026 : ℤ) ∧
    requestedYearValue none 2026 2025 = "Not found in " ++ toString (2026 : ℤ) ∧
    requestedYearValue (some 9) 2026 2025 = toString (9 : ℤ) := by
  refine ⟨(no_match_returns_none (fun _ => none) (refOf 10 130) 5 3 2026 2026).1
      (fun _ _ => rfl),
    (no_match_returns_none (fun _ => none) (refOf 10 130) 5 3 2026 2026).2.2.1 rfl,
    (no_match_returns_none (fun _ => none) (refOf 10 130) 5 3 2026 2025).2.2.2.1
      (by decide),
    (no_match_returns_none (fun _ => none) (refOf 10 130) 5 3 2026 2025).2.2.2.2 9⟩

/-- C4 counterexample: with a provider failing on every candidate day and start
day 7, neither tier matches, and the search result is `None` — not the start
date 7 carrying a tag, as the claim states. -/
theorem no_match_returns_none_cex :
    findVedicAnniversary (fun _ => none) (refOf 10 130) 7 380 = none ∧
    findVedicAnniversary (fun _ => none) (refOf 10 130) 7 380 ≠ some 7 := by
  have h : findVedicAnniversary (fun _ => none) (refOf 10 130) 7 380 = none :=
    findFrom_eq_none _ _ _ 380 0 (fun j _ _ => rfl)
  exact ⟨h, by rw [h]; exact fun hc => Option.noConfusion hc⟩

/-! ### Claim C8 -/

/-- C8: a provider failure on a single candidate day is treated as
no-match-this-day: the iteration is skipped and the search continues with the
next day, never aborting the whole search; and when the provider fails on
every candidate day the search exhausts to its terminal no-match result. -/
theorem provider_failure_skipped :
    ∀ (provider : ℤ → Option (ℚ × ℚ)) (ref : PanchangRef) (startDay : ℤ)
      (i fuel maxDays : ℕ),
      (provider (candLocal startDay i).day = none →
        ¬(365 ≤ i ∧ startDay + 365 < (candLocal startDay i).day) →
        findFrom provider ref startDay i (fuel + 1) =
          findFrom provider ref startDay (i + 1) fuel) ∧
      ((∀ d : ℤ, provider d = none) →
        findVedicAnniversary provider ref startDay maxDays = none) := by
  intro p r s i fuel m
  constructor
  · intro hfail hbr
    simp only [findFrom]
    rw [if_neg hbr, hfail]
  · intro hall
    refine findFrom_eq_none p r s m 0 (fun j _ _ => ?_)
    unfold matchAtB
    rw [hall]

/-- Witness for C8 at concrete inputs: a provider failing everywhere makes
iteration 0 skip to iteration 1, and makes the whole 5-day search return
`None`. -/
theorem provider_failure_skipped_witness :
    findFrom (fun _ => none) (refOf 10 130) 0 0 4 =
      findFrom (fun _ => none) (refOf 10 130) 0 1 3 ∧
    findVedicAnniversary (fun _ => none) (refOf 10 130) 0 5 = none :=
  ⟨(provider_failure_skipped (fun _ => none) (refOf 10 130) 0 0 3 5).1 rfl
      (by rw [candLocal_day]; omega),
    (provider_failure_skipped (fun _ => none) (refOf 10 130) 0 0 3 5).2
      (fun _ => rfl)⟩

/-! ### Claim C9 -/

/-- C9 (amended): a manually entered latitude/longitude is never rejected and
never clamped: for every input, in range or not, the request proceeds to the
ephemeris call with the values forwarded unchanged to `swe.set_topo`. -/
theorem manual_latlon_forwarded :
    ∀ lat lon : ℚ,
      manualRequestFlow lat lon = RequestOutcome.providerCalled (setTopoArgs lon lat 0) ∧
      manualRequestFlow lat lon ≠ RequestOutcome.rejected :=
  fun _ _ => ⟨rfl, fun h => RequestOutcome.noConfusion h⟩

/-- C9 counterexample: latitude 100 lies outside [-90, 90], yet the request is
not rejected before the provider call — the flow reaches the ephemeris call
with the unclamped coordinates (lon 77, lat 100). -/
theorem manual_latlon_cex :
    ¬ validLocation 100 77 ∧
    manualRequestFlow 100 77 = RequestOutcome.providerCalled (77, 100, 0) := by
  constructor
  · intro h
    have h2 := h.2.1
    norm_num at h2
  · rfl

/-! ### Claim C10 -/

/-- C10: for every start date and every `max_days`, `find_vedic_anniversary`
returns either `None` or the chronologically first matching candidate day
`startDay + k`, and the internal `i >= 365` break caps the match at
`startDay + 365` — within 366 days of the start — no matter how large
`max_days` is. -/
theorem search_first_match_capped :
    ∀ (provider : ℤ → Option (ℚ × ℚ)) (ref : PanchangRef) (startDay : ℤ)
      (maxDays : ℕ),
      findVedicAnniversary provider ref startDay maxDays = none ∨
      ∃ k : ℕ, k < maxDays ∧ (k : ℤ) ≤ 365 ∧
        findVedicAnniversary provider ref startDay maxDays = some (startDay + k) ∧
        startDay ≤ startDay + (k : ℤ) ∧ startDay + (k : ℤ) ≤ startDay + 366 ∧
        matchAtB provider ref (startDay + k) = true ∧
        ∀ j : ℕ, j < k → matchAtB provider ref (startDay + j) = false := by
  intro p r s m
  rcases findFrom_spec p r s m 0 with h | ⟨k, _, hk2, hk3, hk4, hk5, hk6⟩
  · left; exact h
  · right
    exact ⟨k, by omega, by omega, hk4, by omega, by omega, hk5,
      fun j hj => hk6 j (by omega) hj⟩

end VedicDob
